import Mathlib

/-!
Verification development for the Performa voice-control code.

The development shallowly embeds the two source files:
- whisper.js: the command dispatcher processCommand, the recording session
  startWhisperRecognition / stopWhisperRecognition;
- the SpeechRecognition shim file: the WhisperSpeechRecognition adapter with
  its start / stop / abort fallback-chain logic.

External JavaScript primitives (String.prototype.includes, split, trim,
toLowerCase restricted to ASCII) are embedded as executable Lean functions on
the character lists underlying String.  Side effects (calling application
actions, speaking feedback, DOM mutation, recognizer callbacks) are embedded
as explicit event traces returned by the functions; mutable session state is
embedded as explicit state passing.
-/

/-- ASCII lowercasing of a single character, the behaviour of JavaScript
toLowerCase on the ASCII range (the only range exercised by the code). -/
def jsCharToLower (c : Char) : Char :=
  if 65 ≤ c.toNat ∧ c.toNat ≤ 90 then Char.ofNat (c.toNat + 32) else c

/-- JavaScript String.prototype.toLowerCase restricted to ASCII. -/
def jsToLower (s : String) : String := String.mk (s.data.map jsCharToLower)

/-- Boolean contiguous-substring containment on character lists: pat occurs
somewhere inside l.  The empty pattern is contained in every list, as with
JavaScript includes. -/
def listContains (pat : List Char) : List Char → Bool
  | [] => pat.isEmpty
  | c :: rest => pat.isPrefixOf (c :: rest) || listContains pat rest

/-- JavaScript String.prototype.includes: substring containment. -/
def strIncludes (s pat : String) : Bool := listContains pat.data s.data

/-- JavaScript String.prototype.trim: drop whitespace from both ends. -/
def jsTrim (s : String) : String :=
  String.mk (((s.data.dropWhile Char.isWhitespace).reverse.dropWhile
    Char.isWhitespace).reverse)

/-- Worker for JavaScript String.prototype.split with a nonempty separator:
scan the list left to right; on the first position where sep is a prefix emit
the accumulated piece and skip the length of the separator (non-overlapping
occurrences), then continue.  skip counts characters still to be consumed from
a just-matched separator. -/
def jsSplitGo (sep : List Char) : List Char → Nat → List Char → List String
  | [], _, acc => [String.mk acc]
  | _ :: rest, skip + 1, acc => jsSplitGo sep rest skip acc
  | c :: rest, 0, acc =>
    if sep.isPrefixOf (c :: rest) then
      String.mk acc :: jsSplitGo sep rest (sep.length - 1) []
    else
      jsSplitGo sep rest 0 (acc ++ [c])

/-- JavaScript String.prototype.split with a string separator: splitting on
the empty string yields the list of single characters, otherwise the pieces
between consecutive non-overlapping occurrences of the separator. -/
def jsSplit (s sep : String) : List String :=
  if sep = "" then s.data.map (fun c => String.mk [c])
  else jsSplitGo sep.data s.data 0 []

/-- The expression transcript.split(phrase)[1].trim() from the
argument-extracting branches of processCommand.  JavaScript would throw on an
out-of-range index; the default "" is never used in the guarded branches
(split always yields at least two pieces there, proved below). -/
def extractArg (transcript phrase : String) : String :=
  jsTrim ((jsSplit transcript phrase).getD 1 "")

/-- The command table returned by getVoiceCommands: trigger phrases and
feedback texts for the built-in commands, in the fixed order of the
dispatcher.  getVoiceCommands itself is not part of the two source files, so
the table is a parameter of the embedded dispatcher. -/
structure VoiceCommands where
  startTimer : String
  stopTimer : String
  resetTimer : String
  startJog : String
  stopJog : String
  logExercise : String
  startTimerFor : String
  addEntry : String
  setActualReps : String
  showProgress : String
  showArchive : String
  openSettings : String
  goHome : String
  startTimerFeedback : String
  stopTimerFeedback : String
  resetTimerFeedback : String
  startJogFeedback : String
  stopJogFeedback : String
  addEntryFeedback : String
  setActualRepsFeedback : String
  navigationFeedback : String
deriving DecidableEq

/-- One entry of the externally supplied complexTasks or automationSequences
lists.  commands is the optional multi-phrase array (a present but empty
array still selects the array branch, as in JavaScript, where any array is
truthy); command is the optional single phrase (the empty string is falsy in
JavaScript, hence kept distinct from absence); primaryCommand and name are
the fallback fields read by the complex-task and automation branches
respectively. -/
structure TaskEntry where
  commands : Option (List String)
  command : Option String
  primaryCommand : String
  name : String
deriving DecidableEq

/-- The pieces of DOM state read by processCommand: whether the addEntry
button exists, the value of the type select, and whether the actualValue and
reps input fields exist. -/
structure Dom where
  addEntryExists : Bool
  typeValue : String
  actualValueExists : Bool
  repsExists : Bool
deriving DecidableEq

/-- The observable effects of one processCommand call: application actions,
DOM mutations and spoken feedback, in the order the code performs them. -/
inductive Effect where
  | startTimerAct
  | stopTimerAct
  | resetTimerAct
  | startJoggingAct
  | stopJoggingAct
  | smartExerciseLogging (arg : String)
  | timerForDuration (arg : String)
  | clickAddEntry
  | setFieldValue (field : String) (value : String)
  | showProgressAct
  | showArchiveAct
  | showSettingsAct
  | hideAllViewsAct
  | runComplexTask (task : TaskEntry)
  | runAutomation (seq : TaskEntry)
  | speak (msg : String)
deriving DecidableEq

/-- Matching of one complex-task entry against the (lowercased) transcript,
embedding whisper.js lines 157-159: with a commands array, find the first
phrase contained lowercased in the transcript and require the found phrase to
be truthy (nonempty); otherwise test containment of the single command phrase
lowercased when that field is truthy, of the raw primaryCommand field when
not. -/
def complexMatches (transcript : String) (task : TaskEntry) : Bool :=
  match task.commands with
  | some cmds =>
    match cmds.find? (fun cmd => strIncludes transcript (jsToLower cmd)) with
    | some cmd => cmd != ""
    | none => false
  | none =>
    strIncludes transcript
      (match task.command with
       | some c => if c = "" then task.primaryCommand else jsToLower c
       | none => task.primaryCommand)

/-- Matching of one automation-sequence entry, embedding whisper.js lines
171-173: identical to complexMatches except that the fallback field is name
and it is lowercased before the containment test. -/
def automationMatches (transcript : String) (seq : TaskEntry) : Bool :=
  match seq.commands with
  | some cmds =>
    match cmds.find? (fun cmd => strIncludes transcript (jsToLower cmd)) with
    | some cmd => cmd != ""
    | none => false
  | none =>
    strIncludes transcript
      (match seq.command with
       | some c => if c = "" then jsToLower seq.name else jsToLower c
       | none => jsToLower seq.name)

/-- The feedback text of the final else branch of processCommand. -/
def notRecognizedMsg : String :=
  "Command not recognized. Please try again or check your voice settings."

/-- The command dispatcher, whisper.js lines 96-187.  The transcript is
lowercased on entry; the built-in commands are tested by substring
containment in the fixed table order of the source; the argument-extracting
branches call extractArg; the addEntry and setActualReps branches consult the
DOM and do nothing when the target element is missing; the final else scans
complexTasks and then automationSequences and otherwise speaks the
not-recognized feedback. -/
def processCommand (cfg : VoiceCommands) (complexTasks automationSequences : List TaskEntry)
    (dom : Dom) (transcriptRaw : String) : List Effect :=
  let transcript := jsToLower transcriptRaw
  if strIncludes transcript cfg.startTimer then
    [Effect.startTimerAct, Effect.speak cfg.startTimerFeedback]
  else if strIncludes transcript cfg.stopTimer then
    [Effect.stopTimerAct, Effect.speak cfg.stopTimerFeedback]
  else if strIncludes transcript cfg.resetTimer then
    [Effect.resetTimerAct, Effect.speak cfg.resetTimerFeedback]
  else if strIncludes transcript cfg.startJog then
    [Effect.startJoggingAct, Effect.speak cfg.startJogFeedback]
  else if strIncludes transcript cfg.stopJog then
    [Effect.stopJoggingAct, Effect.speak cfg.stopJogFeedback]
  else if strIncludes transcript cfg.logExercise then
    [Effect.smartExerciseLogging (extractArg transcript cfg.logExercise)]
  else if strIncludes transcript cfg.startTimerFor then
    [Effect.timerForDuration (extractArg transcript cfg.startTimerFor)]
  else if strIncludes transcript cfg.addEntry then
    if dom.addEntryExists then
      [Effect.clickAddEntry, Effect.speak cfg.addEntryFeedback]
    else []
  else if strIncludes transcript cfg.setActualReps then
    let repsValue := extractArg transcript cfg.setActualReps
    if dom.typeValue = "reps" then
      if dom.actualValueExists then
        [Effect.setFieldValue "actualValue" repsValue,
         Effect.speak (cfg.setActualRepsFeedback ++ " " ++ repsValue)]
      else []
    else if dom.typeValue = "semi" then
      if dom.repsExists then
        [Effect.setFieldValue "reps" repsValue,
         Effect.speak (cfg.setActualRepsFeedback ++ " " ++ repsValue)]
      else []
    else []
  else if strIncludes transcript cfg.showProgress then
    [Effect.showProgressAct, Effect.speak (cfg.navigationFeedback ++ " progress view")]
  else if strIncludes transcript cfg.showArchive then
    [Effect.showArchiveAct, Effect.speak (cfg.navigationFeedback ++ " archive view")]
  else if strIncludes transcript cfg.openSettings then
    [Effect.showSettingsAct, Effect.speak (cfg.navigationFeedback ++ " settings")]
  else if strIncludes transcript cfg.goHome then
    [Effect.hideAllViewsAct, Effect.speak (cfg.navigationFeedback ++ " home")]
  else
    match complexTasks.find? (fun task => complexMatches transcript task) with
    | some task => [Effect.runComplexTask task]
    | none =>
      match automationSequences.find? (fun seq => automationMatches transcript seq) with
      | some seq => [Effect.runAutomation seq]
      | none => [Effect.speak notRecognizedMsg]

/-- Effects that invoke an application action or mutate the DOM, as opposed
to spoken feedback. -/
def isActionEffect : Effect → Bool
  | Effect.speak _ => false
  | _ => true

/-- Effects that execute an externally supplied complex task or automation
sequence. -/
def isTaskEffect : Effect → Bool
  | Effect.runComplexTask _ => true
  | Effect.runAutomation _ => true
  | _ => false

/-- Effects that execute an automation sequence. -/
def isAutomationEffect : Effect → Bool
  | Effect.runAutomation _ => true
  | _ => false

/-- Whether some built-in trigger phrase of the table is contained in the
transcript (the disjunction of the thirteen guards of processCommand). -/
def anyBuiltin (cfg : VoiceCommands) (transcript : String) : Bool :=
  strIncludes transcript cfg.startTimer || strIncludes transcript cfg.stopTimer ||
  strIncludes transcript cfg.resetTimer || strIncludes transcript cfg.startJog ||
  strIncludes transcript cfg.stopJog || strIncludes transcript cfg.logExercise ||
  strIncludes transcript cfg.startTimerFor || strIncludes transcript cfg.addEntry ||
  strIncludes transcript cfg.setActualReps || strIncludes transcript cfg.showProgress ||
  strIncludes transcript cfg.showArchive || strIncludes transcript cfg.openSettings ||
  strIncludes transcript cfg.goHome

/-- Modelled from the spec: the concrete command table of getVoiceCommands is
not among the source files (only the dispatcher that consumes it is), so a
table is modelled from the trigger phrases the spec names (start timer, log
exercise, start timer for, set actual reps, and the navigation commands);
feedback texts are placeholders.  Used only to instantiate witnesses and
counterexamples; the theorems themselves are parametric in the table. -/
def specCommands : VoiceCommands where
  startTimer := "start timer"
  stopTimer := "stop timer"
  resetTimer := "reset timer"
  startJog := "start jogging"
  stopJog := "stop jogging"
  logExercise := "log exercise"
  startTimerFor := "start timer for"
  addEntry := "add entry"
  setActualReps := "set actual reps"
  showProgress := "show progress"
  showArchive := "show archive"
  openSettings := "open settings"
  goHome := "go home"
  startTimerFeedback := "timer started"
  stopTimerFeedback := "timer stopped"
  resetTimerFeedback := "timer reset"
  startJogFeedback := "jogging started"
  stopJogFeedback := "jogging stopped"
  addEntryFeedback := "entry added"
  setActualRepsFeedback := "reps set to"
  navigationFeedback := "navigating to"

/-- A DOM state in which every element the dispatcher touches exists and the
type select holds reps. -/
def domFull : Dom where
  addEntryExists := true
  typeValue := "reps"
  actualValueExists := true
  repsExists := true

/-- A DOM state with no addEntry button. -/
def domNoAddBtn : Dom where
  addEntryExists := false
  typeValue := "reps"
  actualValueExists := true
  repsExists := true

/-- The environment of one shim start call: which initialization steps of the
fallback chain would succeed.  nativeStartOk and offlineStartOk stand for the
construction of the corresponding fallback recognizer not throwing (throws
are modelled at construction, the first statement of the try block); micOk
stands for getUserMedia succeeding in the direct audio-capture block. -/
structure ShimEnv where
  whisperInitOk : Bool
  nativeAvailable : Bool
  nativeStartOk : Bool
  offlineAvailable : Bool
  offlineStartOk : Bool
  micOk : Bool
deriving DecidableEq

/-- The mutable fields of the WhisperSpeechRecognition shim object, resource
handles abstracted to presence flags. -/
structure WhisperSpeechRecognition where
  listening : Bool
  moduleLoaded : Bool
  audioCtx : Bool
  mediaStream : Bool
  processor : Bool
  usingFallback : Bool
  fallbackShim : Bool
deriving DecidableEq

/-- Callback and fallback-recognizer invocations observable from one shim
call. -/
inductive ShimEvent where
  | onstart
  | onend
  | onerror
  | fallbackStart
  | fallbackStop
deriving DecidableEq

/-- The freshly constructed shim object. -/
def WhisperSpeechRecognition.initial : WhisperSpeechRecognition :=
  ⟨false, false, false, false, false, false, false⟩

/-- The shim start method (the unnamed source file, lines 156-228): a no-op
while listening; otherwise try whisper initialization, on failure the native
recognizer, then the offline simulation; in all remaining cases fall through
to the direct audio-capture block, whose failure alone reports onerror and
leaves listening false. -/
def WhisperSpeechRecognition.start (env : ShimEnv) (s : WhisperSpeechRecognition) :
    WhisperSpeechRecognition × List ShimEvent :=
  if s.listening then (s, [])
  else
    let ok := s.moduleLoaded || env.whisperInitOk
    let s1 := { s with moduleLoaded := ok }
    if !ok && env.nativeAvailable && env.nativeStartOk then
      ({ s1 with usingFallback := true, fallbackShim := true, listening := true },
       [ShimEvent.onstart, ShimEvent.fallbackStart])
    else if !ok && env.offlineAvailable && env.offlineStartOk then
      ({ s1 with usingFallback := true, fallbackShim := true, listening := true },
       [ShimEvent.onstart, ShimEvent.fallbackStart])
    else if env.micOk then
      ({ s1 with audioCtx := true, mediaStream := true, processor := true, listening := true },
       [ShimEvent.onstart])
    else
      ({ s1 with audioCtx := true, listening := false }, [ShimEvent.onerror])

/-- The shim stop method (lines 230-256): stop the fallback recognizer when
one is attached, null out processor, audio context and media stream, and in
the finally block clear listening and invoke onend. -/
def WhisperSpeechRecognition.stop (s : WhisperSpeechRecognition) :
    WhisperSpeechRecognition × List ShimEvent :=
  ({ s with processor := false, audioCtx := false, mediaStream := false, listening := false },
   (if s.usingFallback && s.fallbackShim then [ShimEvent.fallbackStop] else []) ++
     [ShimEvent.onend])

/-- The shim abort method (lines 258-260): delegates to stop. -/
def WhisperSpeechRecognition.abort (s : WhisperSpeechRecognition) :
    WhisperSpeechRecognition × List ShimEvent :=
  WhisperSpeechRecognition.stop s

/-- The environment of one startWhisperRecognition call in whisper.js:
whether initializeWhisper would succeed and whether getUserMedia would
succeed. -/
structure RecEnv where
  whisperLoadOk : Bool
  micOk : Bool
deriving DecidableEq

/-- The module-level mutable state of whisper.js: the whisper engine object,
the recording flag, and the audio resources. -/
structure RecState where
  whisper : Bool
  isRecording : Bool
  audioCtx : Bool
  mediaRecorder : Bool
deriving DecidableEq

/-- Observable recorder events of the whisper.js session functions. -/
inductive RecEvent where
  | recorderStart
  | recorderStop
  | statusError
deriving DecidableEq

/-- stopWhisperRecognition, whisper.js lines 89-94: stop the recorder and
clear the flag only when a recorder exists and recording is in progress. -/
def stopWhisperRecognition (s : RecState) : RecState × List RecEvent :=
  if s.mediaRecorder && s.isRecording then
    ({ s with isRecording := false }, [RecEvent.recorderStop])
  else (s, [])

/-- startWhisperRecognition, whisper.js lines 43-87: initialize whisper if
absent, then, when already recording, delegate to stopWhisperRecognition and
return (toggle semantics); otherwise acquire the microphone and start
recording, reporting an error status when microphone access fails. -/
def startWhisperRecognition (env : RecEnv) (s : RecState) : RecState × List RecEvent :=
  let s1 := if s.whisper then s else { s with whisper := env.whisperLoadOk }
  if s1.isRecording then stopWhisperRecognition s1
  else if env.micOk then
    ({ s1 with audioCtx := true, mediaRecorder := true, isRecording := true },
     [RecEvent.recorderStart])
  else (s1, [RecEvent.statusError])

theorem char_ofNat_toNat (n : Nat) (h : n < 55296) : (Char.ofNat n).toNat = n := by
  have hv : n.isValidChar := Or.inl h
  unfold Char.ofNat
  rw [dif_pos hv]
  simp [Char.ofNatAux, Char.toNat, UInt32.toNat]

theorem jsCharToLower_idem (c : Char) : jsCharToLower (jsCharToLower c) = jsCharToLower c := by
  unfold jsCharToLower
  by_cases h : 65 ≤ c.toNat ∧ c.toNat ≤ 90
  · rw [if_pos h]
    have ht : (Char.ofNat (c.toNat + 32)).toNat = c.toNat + 32 :=
      char_ofNat_toNat _ (by omega)
    rw [if_neg (by rw [ht]; omega)]
  · rw [if_neg h, if_neg h]

theorem jsToLower_idem (s : String) : jsToLower (jsToLower s) = jsToLower s := by
  simp only [jsToLower]
  apply congrArg
  show List.map jsCharToLower (List.map jsCharToLower s.data) = List.map jsCharToLower s.data
  rw [List.map_map]
  exact List.map_congr_left (fun a _ => jsCharToLower_idem a)

theorem listContains_iff (pat : List Char) :
    ∀ l : List Char, listContains pat l = true ↔ pat <:+: l := by
  intro l
  induction l with
  | nil =>
    cases pat <;> simp [listContains, List.infix_nil, List.isEmpty]
  | cons c rest ih =>
    simp [listContains, Bool.or_eq_true, ih, List.isPrefixOf_iff_prefix,
      List.infix_cons_iff]

theorem strIncludes_iff (s pat : String) :
    strIncludes s pat = true ↔ pat.data <:+: s.data :=
  listContains_iff pat.data s.data

theorem jsSplitGo_length_pos (sep : List Char) :
    ∀ (l : List Char) (skip : Nat) (acc : List Char),
      0 < (jsSplitGo sep l skip acc).length := by
  intro l
  induction l with
  | nil => intro skip acc; simp [jsSplitGo]
  | cons c rest ih =>
    intro skip acc
    cases skip with
    | zero =>
      simp only [jsSplitGo]
      split
      · simp
      · exact ih 0 (acc ++ [c])
    | succ n => simpa only [jsSplitGo] using ih n acc

theorem jsSplitGo_skip (sep : List Char) :
    ∀ (l : List Char) (skip : Nat) (acc : List Char),
      jsSplitGo sep l skip acc = jsSplitGo sep (l.drop skip) 0 acc := by
  intro l
  induction l with
  | nil => intro skip acc; cases skip <;> simp [jsSplitGo]
  | cons c rest ih =>
    intro skip acc
    cases skip with
    | zero => rfl
    | succ n =>
      simp only [jsSplitGo, List.drop_succ_cons]
      exact ih n acc

theorem jsSplitGo_no_match (sep : List Char) :
    ∀ (l acc : List Char), ¬ (sep <:+: l) →
      jsSplitGo sep l 0 acc = [String.mk (acc ++ l)] := by
  intro l
  induction l with
  | nil => intro acc _; simp [jsSplitGo]
  | cons c rest ih =>
    intro acc h
    have hp : ¬ (sep.isPrefixOf (c :: rest) = true) := by
      rw [List.isPrefixOf_iff_prefix]
      exact fun hpre => h hpre.isInfix
    simp only [jsSplitGo]
    rw [if_neg hp, ih (acc ++ [c]) (fun hi => h (List.infix_cons hi))]
    simp

theorem jsSplitGo_first (sep : List Char) (hsep : sep ≠ []) :
    ∀ (a acc b : List Char),
      (∀ i, i < a.length → ¬ (sep.isPrefixOf ((a ++ sep ++ b).drop i) = true)) →
      jsSplitGo sep (a ++ sep ++ b) 0 acc =
        String.mk (acc ++ a) :: jsSplitGo sep b 0 [] := by
  intro a
  induction a with
  | nil =>
    intro acc b _
    obtain ⟨sc, sep', rfl⟩ : ∃ sc sep', sep = sc :: sep' := by
      cases sep with
      | nil => exact absurd rfl hsep
      | cons x xs => exact ⟨x, xs, rfl⟩
    simp only [List.nil_append, List.cons_append]
    simp only [jsSplitGo]
    rw [if_pos (by
      rw [List.isPrefixOf_iff_prefix]
      exact ⟨b, by simp⟩)]
    rw [jsSplitGo_skip]
    have hl : (sc :: sep').length - 1 = sep'.length := by simp
    rw [hl, List.drop_left]
    simp
  | cons c a' ih =>
    intro acc b hfirst
    have h0 : ¬ (sep.isPrefixOf (c :: (a' ++ sep ++ b)) = true) := by
      have := hfirst 0 (by simp)
      simpa using this
    simp only [List.cons_append]
    simp only [jsSplitGo]
    rw [if_neg h0]
    rw [ih (acc ++ [c]) b (fun i hi => by
      have := hfirst (i + 1) (by simp; omega)
      simpa [List.drop_succ_cons] using this)]
    simp

theorem jsSplitGo_two_of_infix (sep : List Char) (hsep : sep ≠ []) :
    ∀ (l acc : List Char), sep <:+: l → 2 ≤ (jsSplitGo sep l 0 acc).length := by
  intro l
  induction l with
  | nil =>
    intro acc h
    rw [List.infix_nil] at h
    exact absurd h hsep
  | cons c rest ih =>
    intro acc h
    by_cases hp : sep.isPrefixOf (c :: rest) = true
    · simp only [jsSplitGo]
      rw [if_pos hp]
      have := jsSplitGo_length_pos sep rest (sep.length - 1) []
      simp only [List.length_cons]
      omega
    · have hre : sep <:+: rest := by
        rcases List.infix_cons_iff.mp h with hpre | hinf
        · exact absurd (List.isPrefixOf_iff_prefix.mpr hpre) hp
        · exact hinf
      simp only [jsSplitGo]
      rw [if_neg hp]
      exact ih (acc ++ [c]) hre

theorem string_data_ne_nil (p : String) (hp : p ≠ "") : p.data ≠ [] :=
  fun hd => hp (String.ext hd)

theorem extractArg_first_once (t p : String) (a b : List Char) (hp : p ≠ "")
    (ht : t.data = a ++ p.data ++ b)
    (hfirst : ∀ i, i < a.length → ¬ (p.data.isPrefixOf (t.data.drop i) = true))
    (honce : ¬ (p.data <:+: b)) :
    extractArg t p = jsTrim (String.mk b) := by
  have hpd : p.data ≠ [] := string_data_ne_nil p hp
  rw [extractArg, jsSplit, if_neg hp, ht]
  rw [jsSplitGo_first p.data hpd a [] b (by rw [← ht]; exact hfirst)]
  rw [jsSplitGo_no_match p.data b [] honce]
  simp

/-- C9: the dispatcher lowercases its own input, so dispatch is insensitive
to the case of the incoming transcript: processCommand behaves identically on
a transcript and on its lowercased form, for every configuration, task list,
automation list and DOM state. -/
theorem processCommand_lowercase_invariant (cfg : VoiceCommands)
    (cts autos : List TaskEntry) (dom : Dom) (t : String) :
    processCommand cfg cts autos dom t = processCommand cfg cts autos dom (jsToLower t) := by
  simp only [processCommand, jsToLower_idem]

/-- C10: in the argument-extracting branches, the split of the transcript on
a nonempty trigger phrase contained in the transcript always has at least two
pieces, so indexing piece 1 is always defined and trim is never applied to an
absent value. -/
theorem split_index_one_defined (t p : String) (hp : p ≠ "")
    (h : strIncludes t p = true) :
    1 < (jsSplit t p).length ∧ ((jsSplit t p)[1]?).isSome = true := by
  have h2 : 2 ≤ (jsSplit t p).length := by
    rw [jsSplit, if_neg hp]
    exact jsSplitGo_two_of_infix p.data (string_data_ne_nil p hp) t.data []
      ((strIncludes_iff t p).mp h)
  refine ⟨by omega, ?_⟩
  rw [List.getElem?_eq_getElem (by omega)]
  rfl

/-- Witness for split_index_one_defined at the trigger phrase log exercise
and the transcript log exercise pushups. -/
theorem split_index_one_defined_w :
    1 < (jsSplit "log exercise pushups" "log exercise").length ∧
    (((jsSplit "log exercise pushups" "log exercise"))[1]?).isSome = true :=
  split_index_one_defined "log exercise pushups" "log exercise" (by decide) (by decide)

/-- C7 counterexample: an entry with neither a commands array nor a truthy
command field is matched against the raw primaryCommand by the complex-task
scan but against the lowercased name by the automation scan, so the two
matching predicates differ on an entry whose fallback text contains an
uppercase letter. -/
theorem task_predicates_differ_cex :
    complexMatches "hello" ⟨none, none, "Hello", "Hello"⟩ = false ∧
    automationMatches "hello" ⟨none, none, "Hello", "Hello"⟩ = true := by
  decide

/-- C7 (amended): the complex-task and automation matching predicates agree
on every entry whose primaryCommand field equals the lowercased name field;
in particular they agree on all entries with a commands array or with a
truthy single command field, and they differ only in the fallback case, where
the complex-task scan uses primaryCommand verbatim and the automation scan
uses name lowercased. -/
theorem task_predicates_agree (t : String) (e : TaskEntry)
    (h : e.primaryCommand = jsToLower e.name) :
    complexMatches t e = automationMatches t e := by
  unfold complexMatches automationMatches
  cases hc : e.commands with
  | some cmds => rfl
  | none =>
    cases hcmd : e.command with
    | none => rw [h]
    | some c =>
      by_cases hce : c = "" <;> simp [hce, h]

/-- Witness for task_predicates_agree on a fallback-shaped entry with an
already consistent pair of fields. -/
theorem task_predicates_agree_w :
    complexMatches "do workout a" ⟨none, none, "workout a", "Workout A"⟩ =
      automationMatches "do workout a" ⟨none, none, "workout a", "Workout A"⟩ :=
  task_predicates_agree "do workout a" ⟨none, none, "workout a", "Workout A"⟩ (by decide)

/-- C5: for every adapter state, stop releases the processor, the audio
context and the media stream, stops the fallback recognizer when one is
attached, clears listening, invariably emits onend, is idempotent on the
state, and abort behaves exactly like stop. -/
theorem shim_stop_releases (s : WhisperSpeechRecognition) :
    (WhisperSpeechRecognition.stop s).1.processor = false ∧
    (WhisperSpeechRecognition.stop s).1.audioCtx = false ∧
    (WhisperSpeechRecognition.stop s).1.mediaStream = false ∧
    (WhisperSpeechRecognition.stop s).1.listening = false ∧
    ShimEvent.onend ∈ (WhisperSpeechRecognition.stop s).2 ∧
    ((s.usingFallback && s.fallbackShim) = true →
      ShimEvent.fallbackStop ∈ (WhisperSpeechRecognition.stop s).2) ∧
    WhisperSpeechRecognition.abort s = WhisperSpeechRecognition.stop s ∧
    (WhisperSpeechRecognition.stop (WhisperSpeechRecognition.stop s).1).1 =
      (WhisperSpeechRecognition.stop s).1 := by
  refine ⟨rfl, rfl, rfl, rfl, ?_, ?_, rfl, ?_⟩
  · cases h : s.usingFallback && s.fallbackShim <;>
      simp [WhisperSpeechRecognition.stop, h]
  · intro h
    rw [Bool.and_eq_true] at h
    simp [WhisperSpeechRecognition.stop, h.1, h.2]
  · cases h : s.usingFallback && s.fallbackShim <;>
      simp [WhisperSpeechRecognition.stop, h]

/-- Witness for shim_stop_releases: on a state whose fallback recognizer is
attached, stop emits the fallback stop call. -/
theorem shim_stop_releases_w :
    ShimEvent.fallbackStop ∈
      (WhisperSpeechRecognition.stop ⟨true, true, false, false, false, true, true⟩).2 :=
  (shim_stop_releases ⟨true, true, false, false, false, true, true⟩).2.2.2.2.2.1 (by decide)

/-- C4 counterexample: with whisper initialization failing, no native
recognizer and no offline simulation, but a working microphone, start ends
with listening true and emits onstart and no onerror, contradicting the
claimed all-strategies-fail behaviour: the code falls through to the direct
audio-capture path. -/
theorem shim_start_allfail_mic_cex :
    (WhisperSpeechRecognition.start ⟨false, false, false, false, false, true⟩
        WhisperSpeechRecognition.initial).1.listening = true ∧
    (WhisperSpeechRecognition.start ⟨false, false, false, false, false, true⟩
        WhisperSpeechRecognition.initial).2 = [ShimEvent.onstart] := by
  decide

/-- C4 (amended): when whisper initialization fails, the native recognizer is
unavailable or fails, the offline simulation is unavailable or fails, and
additionally the direct audio-capture setup fails, start reports onerror,
ends with listening false, and activates no other recognition path (no
fallback events, processor and fallback flags unchanged). -/
theorem shim_start_all_fail (env : ShimEnv) (s : WhisperSpeechRecognition)
    (hl : s.listening = false) (hm : s.moduleLoaded = false)
    (hw : env.whisperInitOk = false)
    (hn : (env.nativeAvailable && env.nativeStartOk) = false)
    (ho : (env.offlineAvailable && env.offlineStartOk) = false)
    (hmic : env.micOk = false) :
    (WhisperSpeechRecognition.start env s).1.listening = false ∧
    (WhisperSpeechRecognition.start env s).2 = [ShimEvent.onerror] ∧
    (WhisperSpeechRecognition.start env s).1.processor = s.processor ∧
    (WhisperSpeechRecognition.start env s).1.usingFallback = s.usingFallback ∧
    (WhisperSpeechRecognition.start env s).1.fallbackShim = s.fallbackShim := by
  obtain ⟨wi, na, ns, oa, os, mi⟩ := env
  obtain ⟨li, ml, ac, ms, pr, uf, fs⟩ := s
  cases li <;> cases ml <;> cases wi <;> cases mi <;> cases na <;> cases ns <;>
    cases oa <;> cases os <;> simp_all [WhisperSpeechRecognition.start]

/-- Witness for shim_start_all_fail on the fresh state with every strategy
and the microphone failing. -/
theorem shim_start_all_fail_w :
    (WhisperSpeechRecognition.start ⟨false, false, false, false, false, false⟩
        WhisperSpeechRecognition.initial).1.listening = false ∧
    (WhisperSpeechRecognition.start ⟨false, false, false, false, false, false⟩
        WhisperSpeechRecognition.initial).2 = [ShimEvent.onerror] :=
  ⟨(shim_start_all_fail ⟨false, false, false, false, false, false⟩
      WhisperSpeechRecognition.initial rfl rfl rfl rfl rfl rfl).1,
   (shim_start_all_fail ⟨false, false, false, false, false, false⟩
      WhisperSpeechRecognition.initial rfl rfl rfl rfl rfl rfl).2.1⟩

/-- C8 counterexample: with a session already active, the shim start is a
strict no-op that leaves the session listening, while startWhisperRecognition
stops the active recording; the two entry points therefore do not implement
one common busy-start policy. -/
theorem start_policy_differs_cex :
    (WhisperSpeechRecognition.start ⟨true, true, true, true, true, true⟩
        ⟨true, false, false, false, false, false, false⟩ =
      (⟨true, false, false, false, false, false, false⟩, []) ∧
     (⟨true, false, false, false, false, false, false⟩ :
        WhisperSpeechRecognition).listening = true) ∧
    (startWhisperRecognition ⟨true, true⟩ ⟨true, true, true, true⟩).1.isRecording = false := by
  decide

/-- C8 (amended): each entry point applies its own busy-start policy
consistently: the shim start is always a no-op while listening, and
startWhisperRecognition always stops the existing recording session and
returns without starting a new one. -/
theorem start_policies_each_entrypoint :
    (∀ (env : ShimEnv) (s : WhisperSpeechRecognition), s.listening = true →
      WhisperSpeechRecognition.start env s = (s, [])) ∧
    (∀ (renv : RecEnv) (r : RecState), r.isRecording = true → r.mediaRecorder = true →
      (startWhisperRecognition renv r).1.isRecording = false ∧
      (startWhisperRecognition renv r).2 = [RecEvent.recorderStop]) := by
  constructor
  · intro env s h
    simp [WhisperSpeechRecognition.start, h]
  · intro renv r h hm
    cases hw : r.whisper <;>
      simp [startWhisperRecognition, stopWhisperRecognition, h, hm, hw]

/-- Witness for start_policies_each_entrypoint at a listening shim state and
an active recording state. -/
theorem start_policies_each_entrypoint_w :
    WhisperSpeechRecognition.start ⟨false, false, false, false, false, false⟩
        ⟨true, true, false, false, false, false, false⟩ =
      (⟨true, true, false, false, false, false, false⟩, []) ∧
    (startWhisperRecognition ⟨false, false⟩ ⟨true, true, true, true⟩).1.isRecording = false :=
  ⟨start_policies_each_entrypoint.1 ⟨false, false, false, false, false, false⟩
      ⟨true, true, false, false, false, false, false⟩ rfl,
   (start_policies_each_entrypoint.2 ⟨false, false⟩ ⟨true, true, true, true⟩ rfl rfl).1⟩



theorem processCommand_else (cfg : VoiceCommands) (cts autos : List TaskEntry)
    (dom : Dom) (t : String)
    (h1 : strIncludes (jsToLower t) cfg.startTimer = false)
    (h2 : strIncludes (jsToLower t) cfg.stopTimer = false)
    (h3 : strIncludes (jsToLower t) cfg.resetTimer = false)
    (h4 : strIncludes (jsToLower t) cfg.startJog = false)
    (h5 : strIncludes (jsToLower t) cfg.stopJog = false)
    (h6 : strIncludes (jsToLower t) cfg.logExercise = false)
    (h7 : strIncludes (jsToLower t) cfg.startTimerFor = false)
    (h8 : strIncludes (jsToLower t) cfg.addEntry = false)
    (h9 : strIncludes (jsToLower t) cfg.setActualReps = false)
    (h10 : strIncludes (jsToLower t) cfg.showProgress = false)
    (h11 : strIncludes (jsToLower t) cfg.showArchive = false)
    (h12 : strIncludes (jsToLower t) cfg.openSettings = false)
    (h13 : strIncludes (jsToLower t) cfg.goHome = false) :
    processCommand cfg cts autos dom t =
      (match cts.find? (fun task => complexMatches (jsToLower t) task) with
       | some task => [Effect.runComplexTask task]
       | none =>
         match autos.find? (fun seq => automationMatches (jsToLower t) seq) with
         | some seq => [Effect.runAutomation seq]
         | none => [Effect.speak notRecognizedMsg]) := by
  simp only [processCommand]
  rw [if_neg (ne_true_of_eq_false h1), if_neg (ne_true_of_eq_false h2),
    if_neg (ne_true_of_eq_false h3), if_neg (ne_true_of_eq_false h4),
    if_neg (ne_true_of_eq_false h5), if_neg (ne_true_of_eq_false h6),
    if_neg (ne_true_of_eq_false h7), if_neg (ne_true_of_eq_false h8),
    if_neg (ne_true_of_eq_false h9), if_neg (ne_true_of_eq_false h10),
    if_neg (ne_true_of_eq_false h11), if_neg (ne_true_of_eq_false h12),
    if_neg (ne_true_of_eq_false h13)]

/-- C1: the dispatcher fires at most one command per transcript: the trace
contains at most one action effect; when the first built-in of the table
matches, its branch is the whole output regardless of every later entry;
whenever any built-in matches, no complex task and no automation sequence is
executed; and whenever some complex task matches, no automation sequence is
executed. -/
theorem processCommand_priority_at_most_one (cfg : VoiceCommands)
    (cts autos : List TaskEntry) (dom : Dom) (t : String) :
    ((processCommand cfg cts autos dom t).filter isActionEffect).length ≤ 1 ∧
    (strIncludes (jsToLower t) cfg.startTimer = true →
      processCommand cfg cts autos dom t =
        [Effect.startTimerAct, Effect.speak cfg.startTimerFeedback]) ∧
    (anyBuiltin cfg (jsToLower t) = true →
      (processCommand cfg cts autos dom t).filter isTaskEffect = []) ∧
    ((cts.find? (fun task => complexMatches (jsToLower t) task)).isSome = true →
      (processCommand cfg cts autos dom t).filter isAutomationEffect = []) := by
  refine ⟨?_, ?_, ?_, ?_⟩
  · simp only [processCommand]
    by_cases h1 : strIncludes (jsToLower t) cfg.startTimer = true
    · rw [if_pos h1]; simp [isActionEffect]
    rw [if_neg h1]
    by_cases h2 : strIncludes (jsToLower t) cfg.stopTimer = true
    · rw [if_pos h2]; simp [isActionEffect]
    rw [if_neg h2]
    by_cases h3 : strIncludes (jsToLower t) cfg.resetTimer = true
    · rw [if_pos h3]; simp [isActionEffect]
    rw [if_neg h3]
    by_cases h4 : strIncludes (jsToLower t) cfg.startJog = true
    · rw [if_pos h4]; simp [isActionEffect]
    rw [if_neg h4]
    by_cases h5 : strIncludes (jsToLower t) cfg.stopJog = true
    · rw [if_pos h5]; simp [isActionEffect]
    rw [if_neg h5]
    by_cases h6 : strIncludes (jsToLower t) cfg.logExercise = true
    · rw [if_pos h6]; simp [isActionEffect]
    rw [if_neg h6]
    by_cases h7 : strIncludes (jsToLower t) cfg.startTimerFor = true
    · rw [if_pos h7]; simp [isActionEffect]
    rw [if_neg h7]
    by_cases h8 : strIncludes (jsToLower t) cfg.addEntry = true
    · rw [if_pos h8]
      by_cases hd1 : dom.addEntryExists = true
      · rw [if_pos hd1]; simp [isActionEffect]
      · rw [if_neg hd1]; simp
    rw [if_neg h8]
    by_cases h9 : strIncludes (jsToLower t) cfg.setActualReps = true
    · rw [if_pos h9]
      by_cases hd2 : dom.typeValue = "reps"
      · rw [if_pos hd2]
        by_cases hd3 : dom.actualValueExists = true
        · rw [if_pos hd3]; simp [isActionEffect]
        · rw [if_neg hd3]; simp
      rw [if_neg hd2]
      by_cases hd4 : dom.typeValue = "semi"
      · rw [if_pos hd4]
        by_cases hd5 : dom.repsExists = true
        · rw [if_pos hd5]; simp [isActionEffect]
        · rw [if_neg hd5]; simp
      · rw [if_neg hd4]; simp
    rw [if_neg h9]
    by_cases h10 : strIncludes (jsToLower t) cfg.showProgress = true
    · rw [if_pos h10]; simp [isActionEffect]
    rw [if_neg h10]
    by_cases h11 : strIncludes (jsToLower t) cfg.showArchive = true
    · rw [if_pos h11]; simp [isActionEffect]
    rw [if_neg h11]
    by_cases h12 : strIncludes (jsToLower t) cfg.openSettings = true
    · rw [if_pos h12]; simp [isActionEffect]
    rw [if_neg h12]
    by_cases h13 : strIncludes (jsToLower t) cfg.goHome = true
    · rw [if_pos h13]; simp [isActionEffect]
    rw [if_neg h13]
    rcases hfc : cts.find? (fun task => complexMatches (jsToLower t) task) with _ | task
    · rcases hfa : autos.find? (fun seq => automationMatches (jsToLower t) seq) with _ | seq
      · simp [isActionEffect]
      · simp [isActionEffect]
    · simp [isActionEffect]
  · intro h
    simp only [processCommand]
    rw [if_pos h]
  · intro h
    simp only [processCommand]
    by_cases h1 : strIncludes (jsToLower t) cfg.startTimer = true
    · rw [if_pos h1]; rfl
    rw [if_neg h1]
    by_cases h2 : strIncludes (jsToLower t) cfg.stopTimer = true
    · rw [if_pos h2]; rfl
    rw [if_neg h2]
    by_cases h3 : strIncludes (jsToLower t) cfg.resetTimer = true
    · rw [if_pos h3]; rfl
    rw [if_neg h3]
    by_cases h4 : strIncludes (jsToLower t) cfg.startJog = true
    · rw [if_pos h4]; rfl
    rw [if_neg h4]
    by_cases h5 : strIncludes (jsToLower t) cfg.stopJog = true
    · rw [if_pos h5]; rfl
    rw [if_neg h5]
    by_cases h6 : strIncludes (jsToLower t) cfg.logExercise = true
    · rw [if_pos h6]; rfl
    rw [if_neg h6]
    by_cases h7 : strIncludes (jsToLower t) cfg.startTimerFor = true
    · rw [if_pos h7]; rfl
    rw [if_neg h7]
    by_cases h8 : strIncludes (jsToLower t) cfg.addEntry = true
    · rw [if_pos h8]
      by_cases hd1 : dom.addEntryExists = true
      · rw [if_pos hd1]; rfl
      · rw [if_neg hd1]; rfl
    rw [if_neg h8]
    by_cases h9 : strIncludes (jsToLower t) cfg.setActualReps = true
    · rw [if_pos h9]
      by_cases hd2 : dom.typeValue = "reps"
      · rw [if_pos hd2]
        by_cases hd3 : dom.actualValueExists = true
        · rw [if_pos hd3]; rfl
        · rw [if_neg hd3]; rfl
      rw [if_neg hd2]
      by_cases hd4 : dom.typeValue = "semi"
      · rw [if_pos hd4]
        by_cases hd5 : dom.repsExists = true
        · rw [if_pos hd5]; rfl
        · rw [if_neg hd5]; rfl
      · rw [if_neg hd4]; rfl
    rw [if_neg h9]
    by_cases h10 : strIncludes (jsToLower t) cfg.showProgress = true
    · rw [if_pos h10]; rfl
    rw [if_neg h10]
    by_cases h11 : strIncludes (jsToLower t) cfg.showArchive = true
    · rw [if_pos h11]; rfl
    rw [if_neg h11]
    by_cases h12 : strIncludes (jsToLower t) cfg.openSettings = true
    · rw [if_pos h12]; rfl
    rw [if_neg h12]
    by_cases h13 : strIncludes (jsToLower t) cfg.goHome = true
    · rw [if_pos h13]; rfl
    rw [if_neg h13]
    exfalso
    simp only [Bool.not_eq_true] at h1 h2 h3 h4 h5 h6 h7 h8 h9 h10 h11 h12 h13
    simp [anyBuiltin, h1, h2, h3, h4, h5, h6, h7, h8, h9, h10, h11, h12, h13] at h
  · intro h
    by_cases h1 : strIncludes (jsToLower t) cfg.startTimer = true
    · simp only [processCommand]; rw [if_pos h1]; rfl
    by_cases h2 : strIncludes (jsToLower t) cfg.stopTimer = true
    · simp only [processCommand]; rw [if_neg h1, if_pos h2]; rfl
    by_cases h3 : strIncludes (jsToLower t) cfg.resetTimer = true
    · simp only [processCommand]; rw [if_neg h1, if_neg h2, if_pos h3]; rfl
    by_cases h4 : strIncludes (jsToLower t) cfg.startJog = true
    · simp only [processCommand]; rw [if_neg h1, if_neg h2, if_neg h3, if_pos h4]; rfl
    by_cases h5 : strIncludes (jsToLower t) cfg.stopJog = true
    · simp only [processCommand]
      rw [if_neg h1, if_neg h2, if_neg h3, if_neg h4, if_pos h5]; rfl
    by_cases h6 : strIncludes (jsToLower t) cfg.logExercise = true
    · simp only [processCommand]
      rw [if_neg h1, if_neg h2, if_neg h3, if_neg h4, if_neg h5, if_pos h6]; rfl
    by_cases h7 : strIncludes (jsToLower t) cfg.startTimerFor = true
    · simp only [processCommand]
      rw [if_neg h1, if_neg h2, if_neg h3, if_neg h4, if_neg h5, if_neg h6, if_pos h7]; rfl
    by_cases h8 : strIncludes (jsToLower t) cfg.addEntry = true
    · simp only [processCommand]
      rw [if_neg h1, if_neg h2, if_neg h3, if_neg h4, if_neg h5, if_neg h6, if_neg h7,
        if_pos h8]
      by_cases hd1 : dom.addEntryExists = true
      · rw [if_pos hd1]; rfl
      · rw [if_neg hd1]; rfl
    by_cases h9 : strIncludes (jsToLower t) cfg.setActualReps = true
    · simp only [processCommand]
      rw [if_neg h1, if_neg h2, if_neg h3, if_neg h4, if_neg h5, if_neg h6, if_neg h7,
        if_neg h8, if_pos h9]
      by_cases hd2 : dom.typeValue = "reps"
      · rw [if_pos hd2]
        by_cases hd3 : dom.actualValueExists = true
        · rw [if_pos hd3]; rfl
        · rw [if_neg hd3]; rfl
      rw [if_neg hd2]
      by_cases hd4 : dom.typeValue = "semi"
      · rw [if_pos hd4]
        by_cases hd5 : dom.repsExists = true
        · rw [if_pos hd5]; rfl
        · rw [if_neg hd5]; rfl
      · rw [if_neg hd4]; rfl
    by_cases h10 : strIncludes (jsToLower t) cfg.showProgress = true
    · simp only [processCommand]
      rw [if_neg h1, if_neg h2, if_neg h3, if_neg h4, if_neg h5, if_neg h6, if_neg h7,
        if_neg h8, if_neg h9, if_pos h10]; rfl
    by_cases h11 : strIncludes (jsToLower t) cfg.showArchive = true
    · simp only [processCommand]
      rw [if_neg h1, if_neg h2, if_neg h3, if_neg h4, if_neg h5, if_neg h6, if_neg h7,
        if_neg h8, if_neg h9, if_neg h10, if_pos h11]; rfl
    by_cases h12 : strIncludes (jsToLower t) cfg.openSettings = true
    · simp only [processCommand]
      rw [if_neg h1, if_neg h2, if_neg h3, if_neg h4, if_neg h5, if_neg h6, if_neg h7,
        if_neg h8, if_neg h9, if_neg h10, if_neg h11, if_pos h12]; rfl
    by_cases h13 : strIncludes (jsToLower t) cfg.goHome = true
    · simp only [processCommand]
      rw [if_neg h1, if_neg h2, if_neg h3, if_neg h4, if_neg h5, if_neg h6, if_neg h7,
        if_neg h8, if_neg h9, if_neg h10, if_neg h11, if_neg h12, if_pos h13]; rfl
    simp only [Bool.not_eq_true] at h1 h2 h3 h4 h5 h6 h7 h8 h9 h10 h11 h12 h13
    rw [processCommand_else cfg cts autos dom t h1 h2 h3 h4 h5 h6 h7 h8 h9 h10 h11 h12 h13]
    rcases hfc : cts.find? (fun task => complexMatches (jsToLower t) task) with _ | task
    · rw [hfc] at h
      simp at h
    · rfl

/-- Witness for processCommand_priority_at_most_one: a transcript matching
both the start-timer built-in and a complex task fires only the built-in. -/
theorem processCommand_priority_at_most_one_w :
    processCommand specCommands [⟨some ["start timer"], none, "", ""⟩] [] domFull
        "start timer" =
      [Effect.startTimerAct, Effect.speak specCommands.startTimerFeedback] :=
  (processCommand_priority_at_most_one specCommands
    [⟨some ["start timer"], none, "", ""⟩] [] domFull "start timer").2.1 (by decide)

/-- C2 counterexample: with the trigger phrase log exercise occurring twice,
the code passes the trimmed text between the first and the second occurrence
(here a), not the trimmed remainder after the first occurrence (here the
trim of the suffix, a log exercise b), to the exercise-logging action. -/
theorem extract_arg_second_occurrence_cex :
    processCommand specCommands [] [] domFull "log exercise a log exercise b" =
      [Effect.smartExerciseLogging "a"] ∧
    jsTrim " a log exercise b" = "a log exercise b" ∧
    ("a" : String) ≠ "a log exercise b" := by
  decide

/-- C2 (amended): when the transcript decomposes as a, then the trigger
phrase, then b, the decomposition is at the first occurrence of the phrase,
and the phrase does not occur again inside b, the exercise-logging action
receives exactly the trimmed remainder b after that first occurrence; with a
second occurrence present the argument is instead the trimmed text between
the first two occurrences.  When the phrase is the whole transcript, b is
empty and the argument is the empty string. -/
theorem processCommand_logExercise_first_occurrence (cfg : VoiceCommands)
    (cts autos : List TaskEntry) (dom : Dom) (t : String) (a b : List Char)
    (hlow : jsToLower t = t)
    (h1 : strIncludes t cfg.startTimer = false)
    (h2 : strIncludes t cfg.stopTimer = false)
    (h3 : strIncludes t cfg.resetTimer = false)
    (h4 : strIncludes t cfg.startJog = false)
    (h5 : strIncludes t cfg.stopJog = false)
    (hp : cfg.logExercise ≠ "")
    (ht : t.data = a ++ cfg.logExercise.data ++ b)
    (hfirst : ∀ i, i < a.length →
      ¬ (cfg.logExercise.data.isPrefixOf (t.data.drop i) = true))
    (honce : ¬ (cfg.logExercise.data <:+: b)) :
    processCommand cfg cts autos dom t =
      [Effect.smartExerciseLogging (jsTrim (String.mk b))] := by
  have hin : strIncludes t cfg.logExercise = true :=
    (strIncludes_iff t cfg.logExercise).mpr ⟨a, b, ht.symm⟩
  simp only [processCommand, hlow]
  rw [if_neg (ne_true_of_eq_false h1), if_neg (ne_true_of_eq_false h2),
    if_neg (ne_true_of_eq_false h3), if_neg (ne_true_of_eq_false h4),
    if_neg (ne_true_of_eq_false h5), if_pos hin]
  rw [extractArg_first_once t cfg.logExercise a b hp ht hfirst honce]

/-- Witness for processCommand_logExercise_first_occurrence at the spec
scenario: transcript log exercise pushups yields the argument pushups. -/
theorem processCommand_logExercise_first_occurrence_w :
    processCommand specCommands [] [] domFull "log exercise pushups" =
      [Effect.smartExerciseLogging "pushups"] := by
  have h := processCommand_logExercise_first_occurrence specCommands [] [] domFull
    "log exercise pushups" [] (" pushups".data) (by decide) (by decide) (by decide)
    (by decide) (by decide) (by decide) (by decide) (by decide)
    (fun i hi => absurd hi (by simp)) (by decide)
  rw [h]
  rfl

/-- C3 counterexample: a transcript matching the add-entry built-in is
dropped with no action and no feedback at all when the addEntry button is
missing from the DOM. -/
theorem processCommand_addEntry_silent_cex :
    processCommand specCommands [] [] domNoAddBtn "add entry" = [] := by
  decide

/-- C3 (amended): every transcript produces an action or some feedback,
provided the addEntry button exists and the type select resolves to an
existing reps field; without those DOM elements the add-entry and
set-actual-reps branches do nothing at all. -/
theorem processCommand_no_silent_drop (cfg : VoiceCommands)
    (cts autos : List TaskEntry) (dom : Dom) (t : String)
    (hbtn : dom.addEntryExists = true)
    (hfield : (dom.typeValue = "reps" ∧ dom.actualValueExists = true) ∨
      (dom.typeValue = "semi" ∧ dom.repsExists = true)) :
    processCommand cfg cts autos dom t ≠ [] := by
  simp only [processCommand]
  by_cases h1 : strIncludes (jsToLower t) cfg.startTimer = true
  · rw [if_pos h1]; simp
  rw [if_neg h1]
  by_cases h2 : strIncludes (jsToLower t) cfg.stopTimer = true
  · rw [if_pos h2]; simp
  rw [if_neg h2]
  by_cases h3 : strIncludes (jsToLower t) cfg.resetTimer = true
  · rw [if_pos h3]; simp
  rw [if_neg h3]
  by_cases h4 : strIncludes (jsToLower t) cfg.startJog = true
  · rw [if_pos h4]; simp
  rw [if_neg h4]
  by_cases h5 : strIncludes (jsToLower t) cfg.stopJog = true
  · rw [if_pos h5]; simp
  rw [if_neg h5]
  by_cases h6 : strIncludes (jsToLower t) cfg.logExercise = true
  · rw [if_pos h6]; simp
  rw [if_neg h6]
  by_cases h7 : strIncludes (jsToLower t) cfg.startTimerFor = true
  · rw [if_pos h7]; simp
  rw [if_neg h7]
  by_cases h8 : strIncludes (jsToLower t) cfg.addEntry = true
  · rw [if_pos h8, if_pos hbtn]; simp
  rw [if_neg h8]
  by_cases h9 : strIncludes (jsToLower t) cfg.setActualReps = true
  · rw [if_pos h9]
    rcases hfield with ⟨hf1, hf2⟩ | ⟨hf1, hf2⟩
    · rw [if_pos hf1, if_pos hf2]; simp
    · rw [if_neg (by simp [hf1]), if_pos hf1, if_pos hf2]; simp
  rw [if_neg h9]
  by_cases h10 : strIncludes (jsToLower t) cfg.showProgress = true
  · rw [if_pos h10]; simp
  rw [if_neg h10]
  by_cases h11 : strIncludes (jsToLower t) cfg.showArchive = true
  · rw [if_pos h11]; simp
  rw [if_neg h11]
  by_cases h12 : strIncludes (jsToLower t) cfg.openSettings = true
  · rw [if_pos h12]; simp
  rw [if_neg h12]
  by_cases h13 : strIncludes (jsToLower t) cfg.goHome = true
  · rw [if_pos h13]; simp
  rw [if_neg h13]
  rcases hfc : cts.find? (fun task => complexMatches (jsToLower t) task) with _ | task
  · rcases hfa : autos.find? (fun seq => automationMatches (jsToLower t) seq) with _ | seq
    · simp
    · simp
  · simp

/-- Witness for processCommand_no_silent_drop on a complete DOM and an
arbitrary transcript. -/
theorem processCommand_no_silent_drop_w :
    processCommand specCommands [] [] domFull "xyzzy" ≠ [] :=
  processCommand_no_silent_drop specCommands [] [] domFull "xyzzy" rfl
    (Or.inl ⟨rfl, rfl⟩)

/-- C6: a transcript matching no built-in phrase, no complex task and no
automation sequence produces exactly the not-recognized feedback and no
action effect. -/
theorem processCommand_not_recognized (cfg : VoiceCommands)
    (cts autos : List TaskEntry) (dom : Dom) (t : String)
    (hb : anyBuiltin cfg (jsToLower t) = false)
    (hc : cts.find? (fun task => complexMatches (jsToLower t) task) = none)
    (ha : autos.find? (fun seq => automationMatches (jsToLower t) seq) = none) :
    processCommand cfg cts autos dom t = [Effect.speak notRecognizedMsg] ∧
    (processCommand cfg cts autos dom t).filter isActionEffect = [] := by
  simp only [anyBuiltin, Bool.or_eq_false_iff] at hb
  obtain ⟨⟨⟨⟨⟨⟨⟨⟨⟨⟨⟨⟨h1, h2⟩, h3⟩, h4⟩, h5⟩, h6⟩, h7⟩, h8⟩, h9⟩, h10⟩, h11⟩, h12⟩, h13⟩ := hb
  have hout := processCommand_else cfg cts autos dom t h1 h2 h3 h4 h5 h6 h7 h8 h9 h10
    h11 h12 h13
  rw [hc, ha] at hout
  exact ⟨hout, by rw [hout]; rfl⟩

/-- Witness for processCommand_not_recognized at the spec scenario
transcript xyzzy with empty task lists. -/
theorem processCommand_not_recognized_w :
    processCommand specCommands [] [] domFull "xyzzy" = [Effect.speak notRecognizedMsg] :=
  (processCommand_not_recognized specCommands [] [] domFull "xyzzy"
    (by decide) rfl rfl).1
